import Mathlib

/-!
Verification of the shared-memory bridge transport facade
(`src/util/util_bridgecommand.h` of bridge-remix): the channel reading
methods (`get_data`, `copy_data`), the `Command` send methods
(`send_data`, `send_many`, `begin_data_blob`, `end_data_blob`), the
batching methods (`begin_batch`, `end_batch`, `begin_read_data`,
`end_read_data`) and the waiting methods (`waitForCommand`,
`waitForCommandAndDiscard`).

The collaborators that live outside this header — the circular-buffer
primitive (`pull`, `push`, `begin_batch`/`end_batch` on a queue),
`syncDataQueue`, `pop_front` and `waitForCommand` — are modelled from the
specification; every definition below that embeds one of them says so in
its doc comment.  The functions defined inline in the header are embedded
directly from their source.
-/

namespace BridgeRemix

/-- `bridge_util::Result`: the result taxonomy used by the transport. -/
inductive Result where
  | Success
  | Timeout
  | Failure
deriving DecidableEq, Repr

/-- Modelled from the spec: `align<size_t>(n, a)` from `util_common.h`
(not under src/) rounds `n` up to the next multiple of `a`; the spec
states a payload of `n` bytes is stored as `align(n, wordSize)/wordSize + 1`
words. -/
def align (n a : Nat) : Nat := ((n + a - 1) / a) * a

/-- `sizeof(DataT)` where `DataT = uint32_t`: the 32-bit data word. -/
def sizeofDataT : Nat := 4

/-- Modelled from the spec: the reader-side data queue of a channel — a
fixed-capacity ring of 32-bit words with a read-position counter taken
modulo the capacity, plus the read-batch nesting bookkeeping
(`util_circularbuffer.h` is not under src/). -/
structure DataQueue where
  capacity : Nat
  contents : List Nat
  pos : Nat
  batchDepth : Nat
deriving DecidableEq, Repr

/-- `data->get_pos()`: the current read position of the data queue. -/
def DataQueue.get_pos (q : DataQueue) : Nat := q.pos

/-- Modelled from the spec: `data->pull()` reads the word at the current
position and advances the position by one word, modulo the capacity. -/
def DataQueue.pull (q : DataQueue) : Nat × DataQueue :=
  (q.contents.getD q.pos 0, { q with pos := (q.pos + 1) % q.capacity })

/-- Modelled from the spec: `data->pull(void** obj)` behaves like `pull`
but also yields an opaque object slot value; position behaviour is the
same one-word advance modulo capacity. -/
def DataQueue.pullObj (q : DataQueue) : Nat × Nat × DataQueue :=
  (q.contents.getD q.pos 0, q.contents.getD q.pos 0,
    { q with pos := (q.pos + 1) % q.capacity })

/-- Modelled from the spec: `data->pull_and_copy(obj)` reads the
size-prefix word at the current position, copies the following payload
words out, and advances the position past the whole
`align(size, wordSize)/wordSize + 1`-word record, modulo capacity.  Its
return value is the size-prefix word. -/
def DataQueue.pull_and_copy (q : DataQueue) : Nat × DataQueue :=
  let size := q.contents.getD q.pos 0
  let words := align size sizeofDataT / sizeofDataT + 1
  (size, { q with pos := (q.pos + words) % q.capacity })

/-- Modelled from the spec: `data->begin_batch()` opens a read batch on
the data queue. -/
def DataQueue.begin_batch (q : DataQueue) : Result × DataQueue :=
  (Result.Success, { q with batchDepth := q.batchDepth + 1 })

/-- Modelled from the spec: `data->end_batch()` closes a read batch on
the data queue, returning a count. -/
def DataQueue.end_batch (q : DataQueue) : Nat × DataQueue :=
  (q.batchDepth, { q with batchDepth := q.batchDepth - 1 })

/-- The reader channel as the transport sees it: its data queue and the
`serverResetPosRequired` loop flag ("the server completed a loop"). -/
structure ReaderChannel where
  data : DataQueue
  serverResetPosRequired : Bool
deriving DecidableEq, Repr

/-- `Bridge::get_data_pos()` (source lines 157-160): the current read
position of the reader data queue. -/
def get_data_pos (ch : ReaderChannel) : Nat := ch.data.get_pos

/-- `Bridge::get_data()` (source lines 114-123): record the position,
pull one word, and clear the loop flag when it is set and the new
position is below the recorded one. -/
def get_data (ch : ReaderChannel) : Nat × ReaderChannel :=
  let prevPos := get_data_pos ch
  let pulled := ch.data.pull
  let ch1 : ReaderChannel := { ch with data := pulled.2 }
  if ch1.serverResetPosRequired ∧ get_data_pos ch1 < prevPos then
    (pulled.1, { ch1 with serverResetPosRequired := false })
  else
    (pulled.1, ch1)

/-- `Bridge::get_data(void** obj)` (source lines 125-135): like
`get_data` but pulling through the object-slot overload. -/
def get_data_obj (ch : ReaderChannel) : Nat × Nat × ReaderChannel :=
  let prevPos := get_data_pos ch
  let pulled := ch.data.pullObj
  let ch1 : ReaderChannel := { ch with data := pulled.2.2 }
  if ch1.serverResetPosRequired ∧ get_data_pos ch1 < prevPos then
    (pulled.1, pulled.2.1, { ch1 with serverResetPosRequired := false })
  else
    (pulled.1, pulled.2.1, ch1)

/-- The outcome of `Bridge::copy_data<T>`: the returned size-prefix word,
the reader channel afterwards, and whether the size-mismatch error was
logged. -/
structure CopyOutcome where
  retval : Nat
  channel : ReaderChannel
  errorLogged : Bool
deriving DecidableEq, Repr

/-- `Bridge::copy_data<T>(obj, checkSize)` (source lines 137-155):
pull-and-copy a record, log a size-mismatch error when `checkSize` is on
and the pulled size differs from `sizeof(T)`, then apply the same
loop-flag clearing as `get_data`; the pulled size word is returned
regardless. -/
def copy_data (ch : ReaderChannel) (sizeofT : Nat) (checkSize : Bool := true) :
    CopyOutcome :=
  let prevPos := get_data_pos ch
  let pulled := ch.data.pull_and_copy
  let logged := checkSize && decide (pulled.1 ≠ sizeofT)
  let ch1 : ReaderChannel := { ch with data := pulled.2 }
  if ch1.serverResetPosRequired ∧ get_data_pos ch1 < prevPos then
    ⟨pulled.1, { ch1 with serverResetPosRequired := false }, logged⟩
  else
    ⟨pulled.1, ch1, logged⟩

/-- `Bridge::begin_read_data()` (source lines 162-168): open a read
batch on the reader data queue when the bridge is running, else fail. -/
def begin_read_data (gbBridgeRunning : Bool) (q : DataQueue) : Result × DataQueue :=
  if gbBridgeRunning then q.begin_batch
  else (Result.Failure, q)

/-- `Bridge::end_read_data()` (source lines 170-176): close a read batch
on the reader data queue when the bridge is running, else return 0. -/
def end_read_data (gbBridgeRunning : Bool) (q : DataQueue) : Nat × DataQueue :=
  if gbBridgeRunning then q.end_batch
  else (0, q)

/-- One observable call on the data queue of the writer channel: a
`syncDataQueue` reservation with its two arguments, or one of the push
entry points with its payload. -/
inductive WriterEvent where
  | sync (expectedMemUsage : Nat) (posResetOnLastIndex : Bool)
  | push (word : Nat)
  | pushBlob (size : Nat)
  | pushMany (words : List Nat)
  | beginBlobPush (size : Nat)
  | endBlobPush
deriving DecidableEq, Repr

/-- The data queue of the writer channel together with the trace of calls
made on it (`events`) and the count of errors logged by the send paths
(`errors`). -/
structure WriterState where
  capacity : Nat
  queue : List Nat
  events : List WriterEvent
  errors : Nat
deriving DecidableEq, Repr

/-- Modelled from the spec: `Bridge::syncDataQueue(expectedMemUsage,
posResetOnLastIndex)` (declared in the header, defined outside src/)
reserves `expectedMemUsage` words in the data queue before a send; the
blocking backpressure is not modelled, the reservation call and its
arguments are recorded in the trace. -/
def syncDataQueue (st : WriterState) (expectedMemUsage : Nat)
    (posResetOnLastIndex : Bool) : WriterState :=
  { st with events := st.events ++ [.sync expectedMemUsage posResetOnLastIndex] }

/-- Modelled from the spec: `data->push(obj)` appends one word when the
ring has room, failing otherwise. -/
def WriterState.pushWord (st : WriterState) (w : Nat) : Result × WriterState :=
  let st1 := { st with events := st.events ++ [.push w] }
  if st.queue.length + 1 ≤ st.capacity then
    (Result.Success, { st1 with queue := st1.queue ++ [w] })
  else
    (Result.Failure, st1)

/-- Modelled from the spec: `data->push(size, obj)` appends a
length-prefixed blob (`size`-prefix word followed by the payload words)
when the ring has room for the whole record, failing otherwise. -/
def WriterState.pushBlob (st : WriterState) (size : Nat) (payload : List Nat) :
    Result × WriterState :=
  let words := align size sizeofDataT / sizeofDataT + 1
  let st1 := { st with events := st.events ++ [.pushBlob size] }
  if st.queue.length + words ≤ st.capacity then
    (Result.Success, { st1 with queue := st1.queue ++ size :: payload })
  else
    (Result.Failure, st1)

/-- Modelled from the spec: `data->push_many(objs...)` appends several
fixed-width items as one call when the ring has room for all of them,
failing otherwise. -/
def WriterState.push_many (st : WriterState) (ws : List Nat) : Result × WriterState :=
  let st1 := { st with events := st.events ++ [.pushMany ws] }
  if st.queue.length + ws.length ≤ st.capacity then
    (Result.Success, { st1 with queue := st1.queue ++ ws })
  else
    (Result.Failure, st1)

/-- Modelled from the spec: `data->begin_blob_push(size, ptr)` reserves
a `size`-byte blob record and hands back a writable cursor into the
shared buffer on success, leaving the cursor null on failure. -/
def WriterState.begin_blob_push (st : WriterState) (size : Nat) :
    Result × Option Nat × WriterState :=
  let words := align size sizeofDataT / sizeofDataT + 1
  let st1 := { st with events := st.events ++ [.beginBlobPush size] }
  if st.queue.length + words ≤ st.capacity then
    (Result.Success, some st.queue.length, { st1 with queue := st1.queue ++ [size] })
  else
    (Result.Failure, none, st1)

/-- Modelled from the spec: `data->end_blob_push()` finalizes a
two-phase blob write. -/
def WriterState.end_blob_push (st : WriterState) : WriterState :=
  { st with events := st.events ++ [.endBlobPush] }

/-- `Bridge::Command::send_data(const DataT obj)` (source lines
216-226): when the bridge is running, reserve one word via
`syncDataQueue(1, false)`, push the word, and log on push failure;
otherwise do nothing. -/
def send_data (gbBridgeRunning : Bool) (st : WriterState) (obj : Nat) : WriterState :=
  if gbBridgeRunning then
    let st1 := syncDataQueue st 1 false
    let pushed := st1.pushWord obj
    if pushed.1 = Result.Failure then
      { pushed.2 with errors := pushed.2.errors + 1 }
    else
      pushed.2
  else
    st

/-- `Bridge::Command::send_data(const DataT size, const void* obj)`
(source lines 228-239): when the bridge is running, compute
`memUsed = align(size, sizeof(DataT))/sizeof(DataT) + 1`, reserve it via
`syncDataQueue(memUsed, true)`, push the length-prefixed blob, and log
on failure; otherwise do nothing. -/
def send_data_sized (gbBridgeRunning : Bool) (st : WriterState) (size : Nat)
    (payload : List Nat) : WriterState :=
  if gbBridgeRunning then
    let memUsed := align size sizeofDataT / sizeofDataT + 1
    let st1 := syncDataQueue st memUsed true
    let pushed := st1.pushBlob size payload
    if pushed.1 = Result.Failure then
      { pushed.2 with errors := pushed.2.errors + 1 }
    else
      pushed.2
  else
    st

/-- `Bridge::Command::send_many(const Ts... objs)` (source lines
241-253): when the bridge is running, reserve `sizeof...(Ts)` words via
`syncDataQueue(count, false)`, push all items, and log on failure;
otherwise do nothing. -/
def send_many (gbBridgeRunning : Bool) (st : WriterState) (objs : List Nat) :
    WriterState :=
  if gbBridgeRunning then
    let count := objs.length
    let st1 := syncDataQueue st count false
    let pushed := st1.push_many objs
    if pushed.1 = Result.Failure then
      { pushed.2 with errors := pushed.2.errors + 1 }
    else
      pushed.2
  else
    st

/-- `Bridge::Command::begin_data_blob(const size_t size)` (source lines
255-268): the cursor starts null; when the bridge is running, compute
`memUsed = align(size, sizeof(DataT))/sizeof(DataT) + 1`, reserve it via
`syncDataQueue(memUsed, true)`, begin the blob push, and log on failure;
the cursor (null when nothing was reserved) is returned. -/
def begin_data_blob (gbBridgeRunning : Bool) (st : WriterState) (size : Nat) :
    Option Nat × WriterState :=
  if gbBridgeRunning then
    let memUsed := align size sizeofDataT / sizeofDataT + 1
    let st1 := syncDataQueue st memUsed true
    let begun := st1.begin_blob_push size
    if begun.1 = Result.Failure then
      (begun.2.1, { begun.2.2 with errors := begun.2.2.errors + 1 })
    else
      (begun.2.1, begun.2.2)
  else
    (none, st)

/-- `Bridge::Command::end_data_blob()` (source lines 270-275): when the
bridge is running, finalize the blob push; otherwise do nothing. -/
def end_data_blob (gbBridgeRunning : Bool) (st : WriterState) : WriterState :=
  if gbBridgeRunning then st.end_blob_push else st

/-- `Header`: one command-queue record `{command, handle, flags}`. -/
structure Header where
  command : Nat
  pHandle : Nat
  flags : Nat
deriving DecidableEq, Repr

/-- The header `pop_front` yields on a (contract-violating) empty queue. -/
def defaultHeader : Header := ⟨0, 0, 0⟩

/-- The command queue of the reader: its pending headers, a counter of
`pop_front` calls made on it, and the writer-side batch nesting. -/
structure CmdQueue where
  headers : List Header
  popCalls : Nat
  batchDepth : Nat
deriving DecidableEq, Repr

/-- Modelled from the spec: `commands->begin_write_batch()` opens a
producer-side batch on the command queue. -/
def CmdQueue.begin_write_batch (q : CmdQueue) : Result × CmdQueue :=
  (Result.Success, { q with batchDepth := q.batchDepth + 1 })

/-- Modelled from the spec: `commands->end_write_batch()` closes a
producer-side batch, returning a count. -/
def CmdQueue.end_write_batch (q : CmdQueue) : Nat × CmdQueue :=
  (q.batchDepth, { q with batchDepth := q.batchDepth - 1 })

/-- `Bridge::begin_batch()` (source lines 92-100, with
`USE_BLOCKING_QUEUE` defined): open a command-queue write batch when the
bridge is running, else fail. -/
def begin_batch (gbBridgeRunning : Bool) (q : CmdQueue) : Result × CmdQueue :=
  if gbBridgeRunning then q.begin_write_batch
  else (Result.Failure, q)

/-- `Bridge::end_batch()` (source lines 101-109, with
`USE_BLOCKING_QUEUE` defined): close a command-queue write batch when
the bridge is running, else return 0. -/
def end_batch (gbBridgeRunning : Bool) (q : CmdQueue) : Nat × CmdQueue :=
  if gbBridgeRunning then q.end_write_batch
  else (0, q)

/-- Modelled from the spec: `Bridge::pop_front()` (declared in the
header, defined outside src/) removes and returns the next header from
the command queue of the reader; calling it with no pending header is a
documented caller-contract violation, modelled as returning the default
header and leaving the headers unchanged.  Every call is counted. -/
def pop_front (q : CmdQueue) : Header × CmdQueue :=
  match q.headers with
  | [] => (defaultHeader, { q with popCalls := q.popCalls + 1 })
  | h :: t => (h, { q with headers := t, popCalls := q.popCalls + 1 })

/-- The `Commands::Bridge_Any` wildcard command id. -/
def Bridge_Any : Nat := 0

/-- Whether the head of the pending headers matches the waited-for
command: any header matches `Bridge_Any`, otherwise the command ids must
be equal. -/
def headMatches (command : Nat) : List Header → Prop
  | [] => False
  | h :: _ => command = Bridge_Any ∨ h.command = command

instance (command : Nat) (hs : List Header) : Decidable (headMatches command hs) := by
  cases hs with
  | nil => exact isFalse (fun h => h)
  | cons h t => exact inferInstanceAs (Decidable (command = Bridge_Any ∨ h.command = command))

/-- Modelled from the spec: `Bridge::waitForCommand(command,
overrideTimeoutMS, pbEarlyOutSignal)` (declared in the header, defined
outside src/) blocks until a header matching `command` is available, the
timeout elapses, or the early-out signal fires; on success the header is
NOT removed from the queue.  The snapshot model returns `Success` when a
matching header is at the front and `Timeout` otherwise, and never
mutates the queue; the real-time wait itself is not modelled. -/
def waitForCommand (q : CmdQueue) (command : Nat) (overrideTimeoutMS : Nat)
    (pbEarlyOutSignal : Option Bool) : Result × CmdQueue :=
  if headMatches command q.headers then (Result.Success, q)
  else (Result.Timeout, q)

/-- `Bridge::waitForCommandAndDiscard(command, overrideTimeoutMS,
pbEarlyOutSignal)` (source lines 193-201): call `waitForCommand`, call
`pop_front` exactly when it succeeded, and return the result of the wait. -/
def waitForCommandAndDiscard (q : CmdQueue) (command : Nat)
    (overrideTimeoutMS : Nat) (pbEarlyOutSignal : Option Bool) : Result × CmdQueue :=
  let waited := waitForCommand q command overrideTimeoutMS pbEarlyOutSignal
  if Result.Success = waited.1 then
    (waited.1, (pop_front waited.2).2)
  else
    (waited.1, waited.2)

/-- C1: every reader data operation (`get_data()`, `get_data(outObjectSlot)`,
`copy_data<T>`) records the data-queue position before pulling, and the
`serverResetPosRequired` loop flag of the reader channel ends up cleared when
it was set before the call and the position read after the pull is
strictly below the recorded one, and unchanged in every other case. -/
theorem get_data_clears_loop_flag_iff_wrapped (ch : ReaderChannel)
    (sizeofT : Nat) (checkSize : Bool) :
    ((get_data ch).2.serverResetPosRequired =
      if ch.serverResetPosRequired ∧ (ch.data.pull).2.get_pos < ch.data.get_pos
      then false else ch.serverResetPosRequired)
    ∧ ((get_data_obj ch).2.2.serverResetPosRequired =
      if ch.serverResetPosRequired ∧ (ch.data.pullObj).2.2.get_pos < ch.data.get_pos
      then false else ch.serverResetPosRequired)
    ∧ ((copy_data ch sizeofT checkSize).channel.serverResetPosRequired =
      if ch.serverResetPosRequired ∧ (ch.data.pull_and_copy).2.get_pos < ch.data.get_pos
      then false else ch.serverResetPosRequired) := by
  refine ⟨?_, ?_, ?_⟩ <;>
    · simp only [get_data, get_data_obj, copy_data, get_data_pos]
      split <;> simp_all

/-- C10: no reader data operation ever sets the loop flag — across
`get_data()`, `get_data(outObjectSlot)` and `copy_data<T>` the
`serverResetPosRequired` flag either keeps its prior value or moves from
`true` to `false`, never from `false` to `true`. -/
theorem get_data_never_sets_loop_flag (ch : ReaderChannel)
    (sizeofT : Nat) (checkSize : Bool) :
    ((get_data ch).2.serverResetPosRequired = ch.serverResetPosRequired ∨
      (ch.serverResetPosRequired = true ∧ (get_data ch).2.serverResetPosRequired = false))
    ∧ ((get_data_obj ch).2.2.serverResetPosRequired = ch.serverResetPosRequired ∨
      (ch.serverResetPosRequired = true ∧
        (get_data_obj ch).2.2.serverResetPosRequired = false))
    ∧ ((copy_data ch sizeofT checkSize).channel.serverResetPosRequired =
        ch.serverResetPosRequired ∨
      (ch.serverResetPosRequired = true ∧
        (copy_data ch sizeofT checkSize).channel.serverResetPosRequired = false)) := by
  refine ⟨?_, ?_, ?_⟩ <;>
    · simp only [get_data, get_data_obj, copy_data, get_data_pos]
      split <;> simp_all

/-- C7: `copy_data<T>(obj, checkSize)` always hands the pulled size
prefix back to the caller (no error result in the return path), and the
size-mismatch error is logged exactly when `checkSize` is on and the
pulled size differs from `sizeof(T)`. -/
theorem copy_data_absorbs_size_mismatch (ch : ReaderChannel)
    (sizeofT : Nat) (checkSize : Bool) :
    (copy_data ch sizeofT checkSize).retval = (ch.data.pull_and_copy).1
    ∧ ((copy_data ch sizeofT checkSize).errorLogged = true ↔
      (checkSize = true ∧ (copy_data ch sizeofT checkSize).retval ≠ sizeofT)) := by
  simp only [copy_data, get_data_pos]
  split <;> simp_all

/-- C2: with `gbBridgeRunning` false, every `Command` send operation
(`send_data(word)`, `send_data(size, ptr)`, `send_many`,
`begin_data_blob`, `end_data_blob`) leaves the writer channel state —
queue, call trace and error count — exactly as it was: no `syncDataQueue`
call and no push happen. -/
theorem send_ops_noop_when_not_running (st : WriterState) (obj size : Nat)
    (payload objs : List Nat) :
    send_data false st obj = st
    ∧ send_data_sized false st size payload = st
    ∧ send_many false st objs = st
    ∧ begin_data_blob false st size = (none, st)
    ∧ end_data_blob false st = st :=
  ⟨rfl, rfl, rfl, rfl, rfl⟩

/-- C5: with `gbBridgeRunning` false, `begin_batch()` returns `Failure`,
`end_batch()` returns 0, `begin_read_data()` returns `Failure` and
`end_read_data()` returns 0, and each leaves its queue untouched. -/
theorem batch_ops_noop_when_not_running (q : CmdQueue) (dq : DataQueue) :
    begin_batch false q = (Result.Failure, q)
    ∧ end_batch false q = (0, q)
    ∧ begin_read_data false dq = (Result.Failure, dq)
    ∧ end_read_data false dq = (0, dq) :=
  ⟨rfl, rfl, rfl, rfl⟩

/-- C9: with `gbBridgeRunning` false, `begin_data_blob(size)` returns a
null cursor for every size. -/
theorem begin_data_blob_null_when_not_running (st : WriterState) (size : Nat) :
    (begin_data_blob false st size).1 = none :=
  rfl

/-- C4: with the bridge running, `send_data(size, ptr)` and
`begin_data_blob(size)` reserve exactly
`align(size, sizeof(DataT))/sizeof(DataT) + 1` words through
`syncDataQueue(memUsed, true)` and only then push the blob: the call
trace grows by the `sync` event followed by the push event. -/
theorem sized_sends_reserve_aligned_count (st : WriterState) (size : Nat)
    (payload : List Nat) :
    (send_data_sized true st size payload).events =
      st.events ++ [.sync (align size sizeofDataT / sizeofDataT + 1) true,
        .pushBlob size]
    ∧ (begin_data_blob true st size).2.events =
      st.events ++ [.sync (align size sizeofDataT / sizeofDataT + 1) true,
        .beginBlobPush size] := by
  refine ⟨?_, ?_⟩ <;>
    · simp only [send_data_sized, begin_data_blob, syncDataQueue,
        WriterState.pushBlob, WriterState.begin_blob_push]
      split
      · split <;> simp_all
      · simp_all

/-- C6: with the bridge running, every reservation precedes its push and
covers exactly the pushed words: `send_data(word)` traces
`syncDataQueue(1, false)` then the one-word push, and `send_many(items)`
traces `syncDataQueue(count, false)` with `count` the number of items
then the push of those items. -/
theorem word_sends_reserve_before_push (st : WriterState) (obj : Nat)
    (objs : List Nat) :
    (send_data true st obj).events = st.events ++ [.sync 1 false, .push obj]
    ∧ (send_many true st objs).events =
      st.events ++ [.sync objs.length false, .pushMany objs] := by
  refine ⟨?_, ?_⟩ <;>
    · simp only [send_data, send_many, syncDataQueue, WriterState.pushWord,
        WriterState.push_many]
      split
      · split <;> simp_all
      · simp_all

/-- C3: `waitForCommandAndDiscard` returns exactly the result of
`waitForCommand` with the same arguments, pops the front exactly once
when that result is `Success` (the pop-call counter grows by one and the
queue is the popped queue) and zero times otherwise (the queue is
unchanged). -/
theorem waitForCommandAndDiscard_matches_wait (q : CmdQueue) (command : Nat)
    (overrideTimeoutMS : Nat) (pbEarlyOutSignal : Option Bool) :
    (waitForCommandAndDiscard q command overrideTimeoutMS pbEarlyOutSignal).1 =
      (waitForCommand q command overrideTimeoutMS pbEarlyOutSignal).1
    ∧ (waitForCommandAndDiscard q command overrideTimeoutMS pbEarlyOutSignal).2.popCalls =
      q.popCalls +
        (if (waitForCommand q command overrideTimeoutMS pbEarlyOutSignal).1 =
          Result.Success then 1 else 0)
    ∧ (waitForCommandAndDiscard q command overrideTimeoutMS pbEarlyOutSignal).2 =
      (if (waitForCommand q command overrideTimeoutMS pbEarlyOutSignal).1 =
        Result.Success then (pop_front q).2 else q) := by
  simp only [waitForCommandAndDiscard, waitForCommand, pop_front]
  split <;> cases q.headers <;> simp_all

/-- C8: `waitForCommand` only peeks: the command queue is unchanged by
the call (so on `Success` the matching header is still at the front),
success happens exactly when a matching header is at the front, and the
separate `pop_front` call is what removes that front header. -/
theorem waitForCommand_peeks_only (q : CmdQueue) (command : Nat)
    (overrideTimeoutMS : Nat) (pbEarlyOutSignal : Option Bool) :
    (waitForCommand q command overrideTimeoutMS pbEarlyOutSignal).2 = q
    ∧ ((waitForCommand q command overrideTimeoutMS pbEarlyOutSignal).1 =
        Result.Success ↔ headMatches command q.headers)
    ∧ (pop_front q).1 = q.headers.headD defaultHeader
    ∧ (pop_front q).2.headers = q.headers.tail := by
  simp only [waitForCommand, pop_front]
  refine ⟨by split <;> rfl, ?_, ?_, ?_⟩
  · split <;> simp_all
  · cases q.headers <;> rfl
  · cases q.headers <;> rfl

end BridgeRemix
